import Mathlib

/-!
Verification development for the WildFireProx wildfire-proximity pipeline.

The definitions below are a shallow embedding of the data-processing core of
`src/components/WildfireProximityApp.jsx`: the haversine distance calculator,
the ArcGIS geocoder wrapper, the wildfire data fetcher with its fallback set,
the sessionStorage result cache, the risk classifier, and the search
orchestrator.  External HTTP interactions are modelled as explicit input
values (`FetchResult`), JavaScript numbers used only through order comparisons
and equality are modelled as rationals, the trigonometric distance formula is
modelled over the real numbers, and the component state writes (`setError`,
`setResults`, `setCachedData`) are modelled by explicit state passing.
-/

namespace WildfireProx

/-- Result of a JavaScript `fetch` as seen by the calling code: the promise can
reject (transport error carrying a message), or resolve to a response with an
HTTP status whose body either parses to a value of type `α` or fails to parse
(carrying the parse-error message). -/
inductive FetchResult (α : Type) where
  | transportError (msg : String)
  | response (status : Nat) (body : Except String α)

/-- JavaScript `Response.ok`: status in the inclusive range 200..299. -/
def responseOk (status : Nat) : Bool :=
  200 ≤ status && status ≤ 299

/-- JavaScript string truthiness for an optional string field: `undefined`,
`null` and the empty string are falsy. -/
def strTruthy : Option String → Bool
  | none => false
  | some s => s != ""

/-- JavaScript number truthiness for an optional numeric field: `undefined`,
`null` and `0` are falsy. -/
def numTruthy : Option ℚ → Bool
  | none => false
  | some q => q != 0

/-- Model of JavaScript `String.prototype.trim`: drop whitespace from both
ends.  Defined executably so that concrete instances evaluate by `decide`
(the built-in `String.trim` does not kernel-reduce). -/
def trimWs (s : String) : String :=
  String.mk (((s.data.dropWhile Char.isWhitespace).reverse.dropWhile
    Char.isWhitespace).reverse)

/-! ## Geocoder (`geocodeAddress`) -/

/-- One entry of `data.candidates` in the ArcGIS geocoding response:
`location.x`, `location.y`, `score`, `address`. -/
structure Candidate where
  x : ℚ
  y : ℚ
  score : ℚ
  address : String
deriving DecidableEq, Repr

/-- Parsed JSON body of the geocoding response; `candidates` may be absent. -/
structure GeoBody where
  candidates : Option (List Candidate)
deriving DecidableEq, Repr

/-- The location object `geocodeAddress` resolves with on success. -/
structure Location where
  lat : ℚ
  lng : ℚ
  score : ℚ
  address : String
deriving DecidableEq, Repr

/-- The message thrown when the geocoder returns no candidates. -/
def addressNotFoundMsg : String :=
  "Address not found. Please try a more specific address in Newfoundland & Labrador."

/-- The wrapper applied by the catch-all in `geocodeAddress` before
re-throwing: every error message is prefixed with this text. -/
def geocodeFailMsg (m : String) : String :=
  "Geocoding failed: " ++ m

/-- The message thrown on a non-2xx geocoding HTTP status. -/
def httpErrorMsg (status : Nat) : String :=
  "HTTP error! status: " ++ toString status

/-- Model of `geocodeAddress`: throw on transport error, non-ok status, body
parse failure or an empty/absent candidate list; otherwise take the first
candidate.  Every throw inside the `try` is caught by the trailing `catch`,
which re-throws with the `Geocoding failed: ` prefix; the model therefore
returns `.error` with the already-wrapped message. -/
def geocodeAddress (r : FetchResult GeoBody) : Except String Location :=
  match r with
  | .transportError msg => .error (geocodeFailMsg msg)
  | .response status body =>
    if responseOk status then
      match body with
      | .error msg => .error (geocodeFailMsg msg)
      | .ok data =>
        match data.candidates with
        | some (c :: _) => .ok ⟨c.y, c.x, c.score, c.address⟩
        | some [] => .error (geocodeFailMsg addressNotFoundMsg)
        | none => .error (geocodeFailMsg addressNotFoundMsg)
    else .error (geocodeFailMsg (httpErrorMsg status))

/-! ## Wildfire data fetcher (`getWildfireData`) -/

/-- Attribute record of one wildfire feature as delivered by the feature
service; every field may be absent. -/
structure FireAttrs where
  FIREID : Option String := none
  NAME : Option String := none
  STATUS : Option String := none
  AREAEST : Option ℚ := none
  FIREDATE : Option Int := none
  PROVFIRENUM : Option Int := none
  REGION : Option String := none
  DISTRICT : Option String := none
  CAUSE : Option String := none
deriving DecidableEq, Repr

/-- The `geometry` object of a feature: `x` is the longitude, `y` the
latitude. -/
structure Geometry where
  x : ℚ
  y : ℚ
deriving DecidableEq, Repr

/-- One element of `data.features`; the `geometry` object may be absent. -/
structure Feature where
  geometry : Option Geometry
  attributes : FireAttrs
deriving DecidableEq, Repr

/-- Parsed JSON body of the wildfire feature-service response: an optional
`error` member (its message) and an optional `features` array. -/
structure ApiBody where
  error : Option String
  features : Option (List Feature)
deriving DecidableEq, Repr

/-- A fire record as built by `getWildfireData`: the spread attributes plus
the `LATITUDE`/`LONGITUDE` fields extracted from the geometry (null when the
geometry is absent). -/
structure FireRec where
  attrs : FireAttrs
  LATITUDE : Option ℚ
  LONGITUDE : Option ℚ
deriving DecidableEq, Repr

/-- The mapping step of `getWildfireData`:
`\x7b ...feature.attributes, LATITUDE: feature.geometry ? feature.geometry.y : null, LONGITUDE: feature.geometry ? feature.geometry.x : null \x7d`. -/
def featureToRecord (f : Feature) : FireRec :=
  { attrs := f.attributes
    LATITUDE := f.geometry.map Geometry.y
    LONGITUDE := f.geometry.map Geometry.x }

/-- The status codes kept by the active-fire filter. -/
def activeCodes : List String := ["OC", "BH", "UC"]

/-- The filter predicate of `getWildfireData`:
`fire.LATITUDE && fire.LONGITUDE && fire.STATUS && ["OC","BH","UC"].includes(fire.STATUS)`.
Truthiness of the JavaScript `&&` chain is modelled field by field. -/
def keepFire (r : FireRec) : Bool :=
  numTruthy r.LATITUDE && numTruthy r.LONGITUDE && strTruthy r.attrs.STATUS &&
    (match r.attrs.STATUS with
     | some s => activeCodes.contains s
     | none => false)

/-- The hardcoded fallback dataset returned by `getWildfireData` when the live
fetch fails, copied field by field from the source. -/
def fallbackFires : List FireRec :=
  [ { attrs :=
        { FIREID := some ("NL-2025-Kingston")
          NAME := some ("Kingston Peninsula Fire")
          STATUS := some ("OC")
          AREAEST := some 5000
          FIREDATE := some 1723334400000
          PROVFIRENUM := some 301
          REGION := some ("ET")
          DISTRICT := some ("10")
          CAUSE := some ("Lightning") }
      LATITUDE := some 47.75
      LONGITUDE := some (-53.18) }
  , { attrs :=
        { FIREID := some ("NL-2025-Ochre")
          NAME := some ("Ochre Pit Cove Area Fire")
          STATUS := some ("OC")
          AREAEST := some 1200
          FIREDATE := some 1723420800000
          PROVFIRENUM := some 302
          REGION := some ("ET")
          DISTRICT := some ("10")
          CAUSE := some ("Human") }
      LATITUDE := some 47.72
      LONGITUDE := some (-53.25) }
  , { attrs :=
        { FIREID := some ("NL-2025-Trinity")
          NAME := some ("Trinity Bay Fire")
          STATUS := some ("BH")
          AREAEST := some 800
          FIREDATE := some 1723248000000
          PROVFIRENUM := some 303
          REGION := some ("ET")
          DISTRICT := some ("11")
          CAUSE := some ("Lightning") }
      LATITUDE := some 47.65
      LONGITUDE := some (-53.38) }
  , { attrs :=
        { FIREID := some ("NL-2025-Labrador")
          NAME := some ("Labrador City Area Fire")
          STATUS := some ("UC")
          AREAEST := some 2500
          FIREDATE := some 1723161600000
          PROVFIRENUM := some 304
          REGION := some ("LB")
          DISTRICT := some ("20")
          CAUSE := some ("Lightning") }
      LATITUDE := some 52.94
      LONGITUDE := some (-66.91) } ]

/-- Model of `getWildfireData`: any throw inside the `try` (transport error,
non-ok status, body parse failure, or an `error` member in the body) reaches
the `catch`, which calls `setError` (the Boolean degraded flag of the result)
and returns the fallback dataset.  On success the features are mapped to
records and filtered; an absent or empty feature array yields the empty
list. -/
def getWildfireData (r : FetchResult ApiBody) : List FireRec × Bool :=
  match r with
  | .transportError _ => (fallbackFires, true)
  | .response status body =>
    if responseOk status then
      match body with
      | .error _ => (fallbackFires, true)
      | .ok data =>
        match data.error with
        | some _ => (fallbackFires, true)
        | none =>
          match data.features with
          | some fs =>
            if 0 < fs.length then
              ((fs.map featureToRecord).filter keepFire, false)
            else ([], false)
          | none => ([], false)
    else (fallbackFires, true)

/-! ## Result cache (`getCachedData` / `setCachedData`) -/

/-- The object serialized under the `wildfireData` sessionStorage key. -/
structure CacheEntry where
  data : List FireRec
  timestamp : Int
deriving DecidableEq, Repr

/-- The cache TTL: `10 * 60 * 1000` milliseconds. -/
def cacheMaxAge : Int := 10 * 60 * 1000

/-- Model of `getCachedData`: a miss when no entry exists or when
`Date.now() - cached.timestamp` is not below `maxAge`; otherwise the stored
payload.  The stored payload is a JSON array and is therefore always truthy,
so the `cached.data` conjunct holds whenever an entry exists. -/
def getCachedData (st : Option CacheEntry) (now : Int) : Option (List FireRec) :=
  match st with
  | some e => if now - e.timestamp < cacheMaxAge then some e.data else none
  | none => none

/-- Read access paired with the storage state after the call: `getCachedData`
performs no `sessionStorage.setItem` or `removeItem`, so the stored entry is
returned unchanged alongside the lookup result. -/
def getCachedCheck (st : Option CacheEntry) (now : Int) :
    Option (List FireRec) × Option CacheEntry :=
  (getCachedData st now, st)

/-- Model of `setCachedData`: overwrite the entry with the payload and the
current timestamp. -/
def setCachedData (d : List FireRec) (now : Int) : Option CacheEntry :=
  some ⟨d, now⟩

/-! ## Risk classifier (`getRiskLevel`) -/

/-- The object returned by `getRiskLevel`: a level label and a CSS class
string. -/
structure RiskLabel where
  level : String
  color : String
deriving DecidableEq, Repr

/-- Model of `getRiskLevel`.  The source is a chain of guarded early returns;
flattening that chain in execution order gives exactly this nested
conditional: the three out-of-control brackets first, then the shared
below-100 km check for `BH`/`OC`, then the default. -/
def getRiskLevel (distance : ℚ) (status : String) : RiskLabel :=
  if status = "OC" ∧ distance < 10 then
    ⟨"EXTREME RISK", "text-red-900 bg-red-200 border-red-400"⟩
  else if status = "OC" ∧ distance < 25 then
    ⟨"HIGH RISK", "text-red-800 bg-red-100 border-red-300"⟩
  else if status = "OC" ∧ distance < 50 then
    ⟨"MODERATE RISK", "text-orange-800 bg-orange-100 border-orange-300"⟩
  else if (status = "BH" ∨ status = "OC") ∧ distance < 100 then
    ⟨"LOW RISK", "text-yellow-800 bg-yellow-100 border-yellow-300"⟩
  else
    ⟨"MINIMAL RISK", "text-green-800 bg-green-100 border-green-300"⟩

/-- The discrete risk tiers named by the specification. -/
inductive RiskTier where
  | extremeRisk
  | highRisk
  | moderateRisk
  | lowRisk
  | minimalRisk
deriving DecidableEq, Repr

/-- The level label the source uses for each specification tier. -/
def tierLevel : RiskTier → String
  | .extremeRisk => "EXTREME RISK"
  | .highRisk => "HIGH RISK"
  | .moderateRisk => "MODERATE RISK"
  | .lowRisk => "LOW RISK"
  | .minimalRisk => "MINIMAL RISK"

/-- Specification decision table of section 4.5, written from the words of
the spec (top-to-bottom, first match wins) for comparison with the source
classifier; `OutOfControl` is status code `OC` and `BeingHeld` is `BH`. -/
def specRiskTier (d : ℚ) (s : String) : RiskTier :=
  if s = "OC" ∧ d < 10 then .extremeRisk
  else if s = "OC" ∧ d < 25 then .highRisk
  else if s = "OC" ∧ d < 50 then .moderateRisk
  else if (s = "OC" ∨ s = "BH") ∧ d < 100 then .lowRisk
  else .minimalRisk

/-! ## Search orchestrator (`searchWildfires`) -/

/-- One fire record annotated with the computed `distance` field. -/
structure RankedFire where
  fire : FireRec
  distance : ℚ
deriving DecidableEq, Repr

/-- The sort comparator of `searchWildfires` as a Boolean order:
`(a, b) => a.distance - b.distance` sorts by nondecreasing distance. -/
def rankedLE (a b : RankedFire) : Bool :=
  decide (a.distance ≤ b.distance)

/-- Abstract distance function standing for `calculateDistance` applied to
the user location and a record's `LATITUDE`/`LONGITUDE` fields.  The search
claims hold for every distance function, so it is a parameter of the model
(the trigonometric formula itself is modelled separately over the reals). -/
def DistFn : Type :=
  ℚ → ℚ → Option ℚ → Option ℚ → ℚ

/-- The ranking step of `searchWildfires`: annotate every record with its
distance, then sort by distance.  JavaScript `Array.prototype.sort` is
required to be stable and, for the consistent comparator used here, to sort
by the comparator; `List.mergeSort` with the nonstrict comparator order has
exactly these two properties and therefore computes the same list. -/
def rankFires (dist : DistFn) (loc : Location) (fires : List FireRec) :
    List RankedFire :=
  (fires.map fun f =>
    RankedFire.mk f (dist loc.lat loc.lng f.LATITUDE f.LONGITUDE)).mergeSort rankedLE

/-- The network calls `searchWildfires` can trigger.  The repository contains
no hotspot fetch; `hotspotCall` is listed to state its absence and no code
path emits it. -/
inductive NetCall where
  | geocodeCall
  | wildfireCall
  | hotspotCall
deriving DecidableEq, Repr

/-- Inputs of one `searchWildfires` invocation: the component state captured
by the render closure (`prevError`, `prevResults`, the address field, the
sessionStorage cache), the clock, and the outcomes the two external services
would deliver if called. -/
structure SearchIn where
  prevError : String
  prevResults : List RankedFire
  address : String
  cache : Option CacheEntry
  now : Int
  geo : FetchResult GeoBody
  wf : FetchResult ApiBody

/-- Observable outcome of one `searchWildfires` invocation: the final error
message, the final results list, the cache state after the call, and the
network calls made (in order). -/
structure SearchOut where
  error : String
  results : List RankedFire
  cache : Option CacheEntry
  calls : List NetCall
deriving Repr

/-- The blank-address message (`InvalidInput` in the specification). -/
def blankAddressMsg : String := "Please enter an address"

/-- The degraded-mode banner set by the fallback path. -/
def degradedMsg : String := "Could not fetch live data. Showing recent examples."

/-- The informational area-clear message. -/
def areaClearMsg : String := "No active wildfires found in the database. Your area is clear."

/-- Tail of `searchWildfires` after the fire list is obtained.  `setError("")`
ran at the start of the invocation, so the pending error is the degraded
banner when the fetch fell back and the empty string otherwise.  In the
empty-list branch the guard `if (!error)` reads the render-closure value
`prevError` (React state updates are not visible to the running closure), and
sets the area-clear message when that value was falsy. -/
def finishSearch (dist : DistFn) (s : SearchIn) (loc : Location)
    (wildfires : List FireRec) (cache1 : Option CacheEntry) (degraded : Bool)
    (calls : List NetCall) : SearchOut :=
  let pendingError := if degraded then degradedMsg else ("")
  if wildfires.isEmpty then
    { error := if s.prevError = "" then areaClearMsg else pendingError
      results := []
      cache := cache1
      calls := calls }
  else
    { error := pendingError
      results := rankFires dist loc wildfires
      cache := cache1
      calls := calls }

/-- Model of `searchWildfires`: reject a blank address before any network
call; geocode (propagating the thrown message into the error state and
leaving the cache untouched); then take the fire list from the cache or, on a
miss, fetch it and overwrite the cache with whatever the fetcher returned —
including the fallback dataset; finally rank or report. -/
def searchWildfires (dist : DistFn) (s : SearchIn) : SearchOut :=
  if trimWs s.address = "" then
    { error := blankAddressMsg
      results := s.prevResults
      cache := s.cache
      calls := [] }
  else
    match geocodeAddress s.geo with
    | .error msg =>
      { error := msg, results := [], cache := s.cache, calls := [.geocodeCall] }
    | .ok loc =>
      match getCachedData s.cache s.now with
      | some wildfires =>
        finishSearch dist s loc wildfires s.cache false [.geocodeCall]
      | none =>
        let fetched := getWildfireData s.wf
        finishSearch dist s loc fetched.1 (setCachedData fetched.1 s.now)
          fetched.2 [.geocodeCall, .wildfireCall]

/-! ## Distance calculator (`calculateDistance`), over the real numbers -/

/-- JavaScript `Math.atan2(y, x)` on non-NaN inputs, by its case analysis on
the signs of the arguments. -/
noncomputable def atan2 (y x : ℝ) : ℝ :=
  if 0 < x then Real.arctan (y / x)
  else if x < 0 ∧ 0 ≤ y then Real.arctan (y / x) + Real.pi
  else if x < 0 ∧ y < 0 then Real.arctan (y / x) - Real.pi
  else if x = 0 ∧ 0 < y then Real.pi / 2
  else if x = 0 ∧ y < 0 then -(Real.pi / 2)
  else 0

/-- The intermediate value `a` of the haversine formula in
`calculateDistance`, with `dLat` and `dLon` inlined. -/
noncomputable def haversineA (lat1 lon1 lat2 lon2 : ℝ) : ℝ :=
  Real.sin ((lat2 - lat1) * Real.pi / 180 / 2) *
      Real.sin ((lat2 - lat1) * Real.pi / 180 / 2) +
    Real.cos (lat1 * Real.pi / 180) * Real.cos (lat2 * Real.pi / 180) *
        Real.sin ((lon2 - lon1) * Real.pi / 180 / 2) *
        Real.sin ((lon2 - lon1) * Real.pi / 180 / 2)

/-- Model of `calculateDistance`: Earth radius 6371 km times
`c = 2 * atan2(sqrt(a), sqrt(1 - a))`.  The JavaScript floating-point
evaluation is idealized over the real numbers. -/
noncomputable def calculateDistance (lat1 lon1 lat2 lon2 : ℝ) : ℝ :=
  6371 * (2 * atan2 (Real.sqrt (haversineA lat1 lon1 lat2 lon2))
    (Real.sqrt (1 - haversineA lat1 lon1 lat2 lon2)))

/-! ## Theorems -/

/-- C1: the risk classifier is the decision table of section 4.5 evaluated
top-to-bottom with first-match-wins.  For every distance and status the level
returned by the source classifier `getRiskLevel` equals the tier of the
specification table `specRiskTier` (with `OutOfControl` = `OC`,
`BeingHeld` = `BH`, `UnderControl` = `UC`), and the seven tabulated example
evaluations hold. -/
theorem risk_table_matches_spec :
    (∀ (d : ℚ) (s : String),
      (getRiskLevel d s).level = tierLevel (specRiskTier d s)) ∧
    (getRiskLevel 5 ("OC")).level = "EXTREME RISK" ∧
    (getRiskLevel 15 ("OC")).level = "HIGH RISK" ∧
    (getRiskLevel 40 ("OC")).level = "MODERATE RISK" ∧
    (getRiskLevel 60 ("OC")).level = "LOW RISK" ∧
    (getRiskLevel 60 ("BH")).level = "LOW RISK" ∧
    (getRiskLevel 200 ("OC")).level = "MINIMAL RISK" ∧
    (getRiskLevel 5 ("UC")).level = "MINIMAL RISK" := by
  refine ⟨?_, by decide, by decide, by decide, by decide, by decide,
    by decide, by decide⟩
  intro d s
  unfold getRiskLevel specRiskTier
  split_ifs <;> first | rfl | tauto

/-- C2: every fetch or parse failure (transport error, non-2xx status, body
parse failure, or an `error` member in the body) makes `getWildfireData`
return the hardcoded fallback set of exactly 4 records together with the
degraded-mode signal, never propagating the error. -/
theorem fetch_failure_fallback :
    fallbackFires.length = 4 ∧
    (∀ msg, getWildfireData (.transportError msg) = (fallbackFires, true)) ∧
    (∀ (status : Nat) (body : Except String ApiBody), responseOk status = false →
      getWildfireData (.response status body) = (fallbackFires, true)) ∧
    (∀ (status : Nat) (msg : String), responseOk status = true →
      getWildfireData (.response status (.error msg)) = (fallbackFires, true)) ∧
    (∀ (status : Nat) (b : ApiBody) (e : String),
      responseOk status = true → b.error = some e →
      getWildfireData (.response status (.ok b)) = (fallbackFires, true)) := by
  refine ⟨rfl, fun _ => rfl, ?_, ?_, ?_⟩
  · intro status body h
    simp [getWildfireData, h]
  · intro status msg h
    simp [getWildfireData, h]
  · intro status b e h hb
    simp [getWildfireData, h, hb]

/-- Witness for C2: a 500 response and a 200 response whose body carries an
`error` member both yield the fallback set and the degraded signal. -/
theorem fetch_failure_fallback_w :
    getWildfireData (.response 500 (.ok ⟨none, none⟩)) = (fallbackFires, true) ∧
    getWildfireData (.response 200 (.ok ⟨some ("oops"), none⟩)) = (fallbackFires, true) :=
  ⟨fetch_failure_fallback.2.2.1 500 (.ok ⟨none, none⟩) (by decide),
   fetch_failure_fallback.2.2.2.2 200 ⟨some ("oops"), none⟩ ("oops") (by decide) rfl⟩

/-- Characterization of the active-fire filter predicate: a mapped record is
kept exactly when both coordinate fields are present with a nonzero value and
the status field is one of the three active codes. -/
theorem keepFire_iff (r : FireRec) :
    keepFire r = true ↔
      (∃ la, r.LATITUDE = some la ∧ la ≠ 0) ∧
      (∃ lo, r.LONGITUDE = some lo ∧ lo ≠ 0) ∧
      (r.attrs.STATUS = some ("OC") ∨ r.attrs.STATUS = some ("BH") ∨
        r.attrs.STATUS = some ("UC")) := by
  obtain ⟨attrs, la?, lo?⟩ := r
  obtain ⟨fid, nm, st, ar, fd, pn, rg, dt, ca⟩ := attrs
  cases la? <;> cases lo? <;> cases st <;>
    simp [keepFire, numTruthy, strTruthy, activeCodes]
  all_goals aesop

/-- C4: the cache lookup misses when no entry exists or the entry is at least
10 minutes old, returns the stored payload when it is younger, leaves the
stored entry untouched in either case, and in particular misses 11 minutes
after the last store and hits 1 minute after. -/
theorem cache_ttl_behaviour :
    (∀ now : Int, getCachedData none now = none) ∧
    (∀ (e : CacheEntry) (now : Int), cacheMaxAge ≤ now - e.timestamp →
      getCachedData (some e) now = none) ∧
    (∀ (e : CacheEntry) (now : Int), now - e.timestamp < cacheMaxAge →
      getCachedData (some e) now = some e.data) ∧
    (∀ (st : Option CacheEntry) (now : Int), (getCachedCheck st now).2 = st) ∧
    (∀ e : CacheEntry, getCachedData (some e) (e.timestamp + 11 * 60 * 1000) = none) ∧
    (∀ e : CacheEntry, getCachedData (some e) (e.timestamp + 1 * 60 * 1000) = some e.data) := by
  refine ⟨fun _ => rfl, ?_, ?_, fun _ _ => rfl, ?_, ?_⟩
  · intro e now h
    simp only [getCachedData, cacheMaxAge] at h ⊢
    split
    · omega
    · rfl
  · intro e now h
    simp only [getCachedData, cacheMaxAge] at h ⊢
    split
    · rfl
    · omega
  · intro e
    simp only [getCachedData, cacheMaxAge]
    split
    · omega
    · rfl
  · intro e
    simp only [getCachedData, cacheMaxAge]
    split
    · rfl
    · omega

/-- Witness for C4: with an entry stored at time 0, a lookup at 11 minutes
misses and a lookup at 1 minute returns the payload. -/
theorem cache_ttl_behaviour_w :
    getCachedData (some ⟨[], 0⟩) (0 + 11 * 60 * 1000) = none ∧
    getCachedData (some ⟨[], 0⟩) (0 + 1 * 60 * 1000) = some [] :=
  ⟨cache_ttl_behaviour.2.2.2.2.1 ⟨[], 0⟩,
   cache_ttl_behaviour.2.2.2.2.2 ⟨[], 0⟩⟩

/-- A feature whose longitude is exactly 0: both coordinates are present in
the geometry and the status is an active code. -/
def lonZeroFeature : Feature :=
  { geometry := some ⟨0, 47⟩
    attributes := { STATUS := some ("OC") } }

/-- Counterexample for C3: a successfully fetched feature whose coordinates
are both present (latitude 47, longitude 0) and whose status is the
recognized code `OC` is nevertheless absent from the output, because the
coordinate check is a truthiness test and 0 is falsy.  The claim, which
requires exactly the records with both coordinates present and a recognized
status to be returned, fails on this input. -/
theorem fetch_filter_cx :
    (featureToRecord lonZeroFeature).LATITUDE = some 47 ∧
    (featureToRecord lonZeroFeature).LONGITUDE = some 0 ∧
    (featureToRecord lonZeroFeature).attrs.STATUS = some ("OC") ∧
    getWildfireData (.response 200 (.ok ⟨none, some [lonZeroFeature]⟩)) =
      ([], false) := by
  refine ⟨rfl, rfl, rfl, ?_⟩
  decide

/-- C3 (amended): for every successfully fetched feature list (2xx status, no
`error` member), the output of `getWildfireData` contains exactly the mapped
records whose coordinates are both present *and nonzero* and whose status is
one of `OC`, `BH`, `UC`; records with status `O`, an unrecognized status, a
missing status, a missing coordinate, or a coordinate equal to 0 are
absent. -/
theorem fetch_success_members (status : Nat) (b : ApiBody)
    (hok : responseOk status = true) (herr : b.error = none) (rec : FireRec) :
    rec ∈ (getWildfireData (.response status (.ok b))).1 ↔
      ∃ f ∈ b.features.getD [], rec = featureToRecord f ∧
        (∃ la, rec.LATITUDE = some la ∧ la ≠ 0) ∧
        (∃ lo, rec.LONGITUDE = some lo ∧ lo ≠ 0) ∧
        (rec.attrs.STATUS = some ("OC") ∨ rec.attrs.STATUS = some ("BH") ∨
          rec.attrs.STATUS = some ("UC")) := by
  obtain ⟨err, feats⟩ := b
  simp only at herr
  subst herr
  cases feats with
  | none => simp [getWildfireData, hok]
  | some fs =>
    cases fs with
    | nil => simp [getWildfireData, hok]
    | cons f fs' =>
      simp only [getWildfireData, hok, if_true, Option.getD_some]
      rw [if_pos (by simp)]
      simp only [List.mem_filter, List.mem_map, keepFire_iff]
      constructor
      · rintro ⟨⟨g, hg, rfl⟩, hcond⟩
        exact ⟨g, hg, rfl, hcond⟩
      · rintro ⟨g, hg, rfl, hcond⟩
        exact ⟨⟨g, hg, rfl⟩, hcond⟩

/-- A feature passing every filter condition, used to witness the
characterization. -/
def goodFeature : Feature :=
  { geometry := some ⟨-53, 47⟩
    attributes := { STATUS := some ("OC") } }

/-- Witness for C3 (amended): the record mapped from a feature with nonzero
coordinates and status `OC` is a member of the fetch output. -/
theorem fetch_success_members_w :
    featureToRecord goodFeature ∈
      (getWildfireData (.response 200 (.ok ⟨none, some [goodFeature]⟩))).1 :=
  (fetch_success_members 200 ⟨none, some [goodFeature]⟩ rfl rfl
    (featureToRecord goodFeature)).mpr
    ⟨goodFeature, by decide, rfl, ⟨47, rfl, by decide⟩, ⟨-53, rfl, by decide⟩,
      Or.inl rfl⟩

/-- C9: a fetched record with a geometry latitude or longitude equal to
exactly 0 fails the filter even when its status is active, because the
coordinate-presence check is a truthiness test; end to end, a single feature
with a zero coordinate and any attribute record produces the empty output. -/
theorem zero_coordinate_excluded :
    (∀ r : FireRec, r.LATITUDE = some 0 ∨ r.LONGITUDE = some 0 →
      keepFire r = false) ∧
    (∀ (attrs : FireAttrs) (x : ℚ),
      getWildfireData
        (.response 200 (.ok ⟨none, some [⟨some ⟨x, 0⟩, attrs⟩]⟩)) =
        ([], false)) ∧
    (∀ (attrs : FireAttrs) (y : ℚ),
      getWildfireData
        (.response 200 (.ok ⟨none, some [⟨some ⟨0, y⟩, attrs⟩]⟩)) =
        ([], false)) := by
  have h200 : responseOk 200 = true := rfl
  refine ⟨?_, ?_, ?_⟩
  · rintro r (h | h) <;> simp [keepFire, h, numTruthy]
  · intro attrs x
    simp [getWildfireData, h200, featureToRecord, keepFire, numTruthy]
  · intro attrs y
    simp [getWildfireData, h200, featureToRecord, keepFire, numTruthy]

/-- Witness for C9: a feature at latitude 0 with status `OC` yields the empty
output. -/
theorem zero_coordinate_excluded_w :
    getWildfireData
      (.response 200
        (.ok ⟨none, some [⟨some ⟨-53, 0⟩, { STATUS := some ("OC") }⟩]⟩)) =
      ([], false) :=
  zero_coordinate_excluded.2.1 { STATUS := some ("OC") } (-53)

/-- C6: a blank address (whitespace-only, so that `address.trim()` is empty)
is rejected with the invalid-input message before anything else happens: no
geocoding call, no wildfire fetch, no hotspot fetch (none exists in the
repository), the cache is untouched and the displayed results are
unchanged. -/
theorem blank_address_rejected (dist : DistFn) (s : SearchIn)
    (h : trimWs s.address = "") :
    searchWildfires dist s =
      { error := blankAddressMsg
        results := s.prevResults
        cache := s.cache
        calls := [] } := by
  simp [searchWildfires, h]

/-- A placeholder distance function for concrete instantiations of the
search model. -/
def dummyDist : DistFn := fun _ _ _ _ => 0

/-- Witness for C6: a whitespace-only address is rejected with no calls and
an unchanged cache. -/
theorem blank_address_rejected_w :
    searchWildfires dummyDist
      { prevError := ""
        prevResults := []
        address := "   "
        cache := none
        now := 0
        geo := .transportError ("x")
        wf := .transportError ("x") } =
      { error := blankAddressMsg, results := [], cache := none, calls := [] } :=
  blank_address_rejected dummyDist _ (by decide)

/-- The ranking comparator is transitive. -/
theorem rankedLE_trans (a b c : RankedFire) :
    rankedLE a b → rankedLE b c → rankedLE a c := by
  simp only [rankedLE, decide_eq_true_eq]
  exact le_trans

/-- The ranking comparator is total. -/
theorem rankedLE_total (a b : RankedFire) :
    rankedLE a b || rankedLE b a := by
  simp only [rankedLE, Bool.or_eq_true, decide_eq_true_eq]
  exact le_total _ _

/-- The ranking step produces a list sorted by nondecreasing distance. -/
theorem rankFires_pairwise (dist : DistFn) (loc : Location)
    (fires : List FireRec) :
    (rankFires dist loc fires).Pairwise
      (fun a b => a.distance ≤ b.distance) := by
  have h := List.sorted_mergeSort rankedLE_trans rankedLE_total
    (fires.map fun f =>
      RankedFire.mk f (dist loc.lat loc.lng f.LATITUDE f.LONGITUDE))
  exact h.imp (by simp [rankedLE])

/-- Every branch of the search tail yields a sorted results list. -/
theorem finishSearch_pairwise (dist : DistFn) (s : SearchIn) (loc : Location)
    (wildfires : List FireRec) (cache1 : Option CacheEntry) (degraded : Bool)
    (calls : List NetCall) :
    (finishSearch dist s loc wildfires cache1 degraded calls).results.Pairwise
      (fun a b => a.distance ≤ b.distance) := by
  unfold finishSearch
  cases hw : wildfires.isEmpty with
  | true => simp [hw]
  | false => simpa [hw] using rankFires_pairwise dist loc wildfires

/-- C5: the ranked list is sorted by nondecreasing distance — both at the
ranking step and for the results of any non-blank search — and the sort is
stable: for every distance value, the records at that distance appear in the
output in exactly their original fetch order (filtering the sorted list to
one distance class gives the corresponding filtering of the unsorted mapped
list). -/
theorem ranked_sorted_stable :
    (∀ (dist : DistFn) (loc : Location) (fires : List FireRec),
      (rankFires dist loc fires).Pairwise
        (fun a b => a.distance ≤ b.distance)) ∧
    (∀ (dist : DistFn) (s : SearchIn), trimWs s.address ≠ "" →
      (searchWildfires dist s).results.Pairwise
        (fun a b => a.distance ≤ b.distance)) ∧
    (∀ (dist : DistFn) (loc : Location) (fires : List FireRec) (d : ℚ),
      (rankFires dist loc fires).filter (fun r => r.distance == d) =
        (fires.map fun f =>
          RankedFire.mk f (dist loc.lat loc.lng f.LATITUDE f.LONGITUDE)).filter
          (fun r => r.distance == d)) := by
  refine ⟨rankFires_pairwise, ?_, ?_⟩
  · intro dist s h
    unfold searchWildfires
    rw [if_neg h]
    cases hgeo : geocodeAddress s.geo with
    | error msg => exact List.Pairwise.nil
    | ok loc =>
      cases hc : getCachedData s.cache s.now with
      | some w => exact finishSearch_pairwise ..
      | none => exact finishSearch_pairwise ..
  · intro dist loc fires d
    set xs : List RankedFire :=
      fires.map fun f =>
        RankedFire.mk f (dist loc.lat loc.lng f.LATITUDE f.LONGITUDE) with hxs
    set p : RankedFire → Bool := fun r => r.distance == d with hp
    have h1 : List.Sublist (xs.filter p) xs := List.filter_sublist xs
    have hpw : (xs.filter p).Pairwise (fun a b => rankedLE a b = true) := by
      apply List.pairwise_of_forall_mem_list
      intro a ha b hb
      have ha' := (List.mem_filter.mp ha).2
      have hb' := (List.mem_filter.mp hb).2
      simp only [hp, beq_iff_eq] at ha' hb'
      simp [rankedLE, ha', hb']
    have h2 : List.Sublist (xs.filter p) (xs.mergeSort rankedLE) :=
      List.sublist_mergeSort rankedLE_trans rankedLE_total hpw h1
    have h3 : List.Sublist ((xs.filter p).filter p)
        ((xs.mergeSort rankedLE).filter p) :=
      h2.filter p
    rw [List.filter_filter] at h3
    simp only [Bool.and_self] at h3
    have h5 : List.Perm ((xs.mergeSort rankedLE).filter p) (xs.filter p) :=
      (List.mergeSort_perm xs rankedLE).filter p
    have h6 : (xs.filter p).length = ((xs.mergeSort rankedLE).filter p).length :=
      h5.length_eq.symm
    have h7 : xs.filter p = (xs.mergeSort rankedLE).filter p :=
      h3.eq_of_length h6
    exact h7.symm

/-- Witness for C5: the sortedness conclusion instantiated at a concrete
non-blank search. -/
theorem ranked_sorted_stable_w :
    (searchWildfires dummyDist
      { prevError := ""
        prevResults := []
        address := "a"
        cache := none
        now := 0
        geo := .transportError ("x")
        wf := .transportError ("x") }).results.Pairwise
      (fun a b => a.distance ≤ b.distance) :=
  ranked_sorted_stable.2.1 dummyDist _ (by decide)

/-- C10: on a cache miss with a failing live fetch, the search stores the
fallback set in the cache under the current timestamp (after calling both the
geocoder and the wildfire service, ranking the fallback records and showing
the degraded banner); and every subsequent search whose clock is still within
the TTL of that store takes the fallback records from the cache — it calls
only the geocoder, leaves the cache unchanged and ranks the fallback
records. -/
theorem fallback_cached_and_reused
    (dist : DistFn) (s : SearchIn) (loc : Location)
    (hb : trimWs s.address ≠ "")
    (hgeo : geocodeAddress s.geo = .ok loc)
    (hmiss : getCachedData s.cache s.now = none)
    (hfail : getWildfireData s.wf = (fallbackFires, true)) :
    (searchWildfires dist s).cache = some ⟨fallbackFires, s.now⟩ ∧
    (searchWildfires dist s).calls = [.geocodeCall, .wildfireCall] ∧
    (searchWildfires dist s).error = degradedMsg ∧
    (searchWildfires dist s).results = rankFires dist loc fallbackFires ∧
    (∀ (dist2 : DistFn) (s2 : SearchIn) (loc2 : Location),
      s2.cache = some ⟨fallbackFires, s.now⟩ →
      trimWs s2.address ≠ "" →
      geocodeAddress s2.geo = .ok loc2 →
      s2.now - s.now < cacheMaxAge →
      (searchWildfires dist2 s2).calls = [.geocodeCall] ∧
      (searchWildfires dist2 s2).cache = s2.cache ∧
      (searchWildfires dist2 s2).results = rankFires dist2 loc2 fallbackFires) := by
  have hout : searchWildfires dist s =
      finishSearch dist s loc fallbackFires (some ⟨fallbackFires, s.now⟩) true
        [.geocodeCall, .wildfireCall] := by
    unfold searchWildfires
    rw [if_neg hb, hgeo, hmiss, hfail]
    rfl
  have hne : fallbackFires.isEmpty = false := rfl
  refine ⟨?_, ?_, ?_, ?_, ?_⟩
  · rw [hout]; unfold finishSearch; rw [hne]; rfl
  · rw [hout]; unfold finishSearch; rw [hne]; rfl
  · rw [hout]; unfold finishSearch; rw [hne]; rfl
  · rw [hout]; unfold finishSearch; rw [hne]; rfl
  · intro dist2 s2 loc2 hc2 hb2 hgeo2 hfresh
    have hhit : getCachedData s2.cache s2.now = some fallbackFires := by
      rw [hc2]
      simp [getCachedData, hfresh]
    have hout2 : searchWildfires dist2 s2 =
        finishSearch dist2 s2 loc2 fallbackFires s2.cache false
          [.geocodeCall] := by
      unfold searchWildfires
      rw [if_neg hb2, hgeo2, hhit]
    refine ⟨?_, ?_, ?_⟩
    · rw [hout2]; unfold finishSearch; rw [hne]; rfl
    · rw [hout2]; unfold finishSearch; rw [hne]; rfl
    · rw [hout2]; unfold finishSearch; rw [hne]; rfl

/-- A geocoding response resolving to one candidate, for concrete search
instantiations. -/
def geoOkFetch : FetchResult GeoBody :=
  .response 200 (.ok ⟨some [⟨-52, 47, 100, "addr"⟩]⟩)

/-- Witness for C10: concretely, a failed fetch at time 0 leaves the fallback
set in the cache, and a second search one minute later performs only the
geocoding call and keeps the cache unchanged. -/
theorem fallback_cached_and_reused_w :
    (searchWildfires dummyDist
      { prevError := "", prevResults := [], address := "a", cache := none,
        now := 0, geo := geoOkFetch, wf := .transportError ("down") }).cache =
      some ⟨fallbackFires, 0⟩ ∧
    (searchWildfires dummyDist
      { prevError := "", prevResults := [], address := "b",
        cache := some ⟨fallbackFires, 0⟩, now := 60000, geo := geoOkFetch,
        wf := .transportError ("x") }).calls = [.geocodeCall] ∧
    (searchWildfires dummyDist
      { prevError := "", prevResults := [], address := "b",
        cache := some ⟨fallbackFires, 0⟩, now := 60000, geo := geoOkFetch,
        wf := .transportError ("x") }).cache = some ⟨fallbackFires, 0⟩ := by
  have H := fallback_cached_and_reused dummyDist
    { prevError := "", prevResults := [], address := "a", cache := none,
      now := 0, geo := geoOkFetch, wf := .transportError ("down") }
    ⟨47, -52, 100, "addr"⟩ (by decide) rfl rfl rfl
  have H2 := H.2.2.2.2 dummyDist
    { prevError := "", prevResults := [], address := "b",
      cache := some ⟨fallbackFires, 0⟩, now := 60000, geo := geoOkFetch,
      wf := .transportError ("x") }
    ⟨47, -52, 100, "addr"⟩ rfl (by decide) rfl (by decide)
  exact ⟨H.1, H2.1, H2.2.1⟩

/-- The haversine intermediate value is symmetric in the two points. -/
theorem haversineA_symm (lat1 lon1 lat2 lon2 : ℝ) :
    haversineA lat1 lon1 lat2 lon2 = haversineA lat2 lon2 lat1 lon1 := by
  unfold haversineA
  have h1 : (lat1 - lat2) * Real.pi / 180 / 2 =
      -((lat2 - lat1) * Real.pi / 180 / 2) := by ring
  have h2 : (lon1 - lon2) * Real.pi / 180 / 2 =
      -((lon2 - lon1) * Real.pi / 180 / 2) := by ring
  rw [h1, h2, Real.sin_neg, Real.sin_neg]
  ring

/-- The haversine intermediate value vanishes at equal points. -/
theorem haversineA_self (lat lon : ℝ) : haversineA lat lon lat lon = 0 := by
  unfold haversineA
  simp

/-- C7: the idealized (real-number) model of `calculateDistance` is exactly
symmetric in its two coordinate pairs, and the distance from a point to
itself is exactly 0. -/
theorem distance_symm_self_zero :
    (∀ lat1 lon1 lat2 lon2 : ℝ,
      calculateDistance lat1 lon1 lat2 lon2 =
        calculateDistance lat2 lon2 lat1 lon1) ∧
    (∀ lat lon : ℝ, calculateDistance lat lon lat lon = 0) := by
  constructor
  · intro lat1 lon1 lat2 lon2
    unfold calculateDistance
    rw [haversineA_symm lat1 lon1 lat2 lon2]
  · intro lat lon
    unfold calculateDistance
    rw [haversineA_self]
    norm_num [atan2, Real.arctan_zero]

/-- Counterexample for C8: the message thrown at the zero-candidates site is
not delivered verbatim to the caller of `geocodeAddress` — the surrounding
catch-all re-throws it with the `Geocoding failed: ` prefix, so the surfaced
message differs from the AddressNotFound message. -/
theorem geocode_verbatim_cx :
    geocodeAddress (.response 200 (.ok ⟨some []⟩)) =
      .error (geocodeFailMsg addressNotFoundMsg) ∧
    geocodeFailMsg addressNotFoundMsg ≠ addressNotFoundMsg := by
  constructor
  · rfl
  · decide

/-- C8 (amended): `geocodeAddress` fails on zero candidates with the
AddressNotFound message wrapped in the `Geocoding failed: ` prefix (the
original text preserved as a suffix, not verbatim), fails on a non-2xx
status with the wrapped HTTP error message, fails on a transport error with
the wrapped transport message; the zero-candidate message differs from the
HTTP failure message for every status; and the search orchestrator surfaces
whatever message `geocodeAddress` threw, unchanged. -/
theorem geocode_error_modes :
    (∀ (status : Nat) (b : GeoBody),
      responseOk status = true → b.candidates.getD [] = [] →
      geocodeAddress (.response status (.ok b)) =
        .error (geocodeFailMsg addressNotFoundMsg)) ∧
    (∀ (status : Nat) (body : Except String GeoBody),
      responseOk status = false →
      geocodeAddress (.response status body) =
        .error (geocodeFailMsg (httpErrorMsg status))) ∧
    (∀ msg, geocodeAddress (.transportError msg) =
      .error (geocodeFailMsg msg)) ∧
    (∀ status : Nat,
      geocodeFailMsg (httpErrorMsg status) ≠ geocodeFailMsg addressNotFoundMsg) ∧
    (∀ (dist : DistFn) (s : SearchIn) (msg : String),
      trimWs s.address ≠ "" → geocodeAddress s.geo = .error msg →
      (searchWildfires dist s).error = msg) := by
  refine ⟨?_, ?_, fun _ => rfl, ?_, ?_⟩
  · intro status b hok hc
    cases hb : b.candidates with
    | none => simp [geocodeAddress, hok, hb]
    | some cs =>
      cases cs with
      | nil => simp [geocodeAddress, hok, hb]
      | cons c cs' => rw [hb] at hc; simp at hc
  · intro status body hok
    simp [geocodeAddress, hok]
  · intro status h
    have hd := congrArg String.data h
    simp only [geocodeFailMsg, httpErrorMsg, String.data_append] at hd
    have h3 := List.append_cancel_left hd
    have hA : addressNotFoundMsg.data =
        'A' :: ("ddress not found. Please try a more specific address in Newfoundland & Labrador.").data := rfl
    rw [hA, List.cons_append] at h3
    injection h3 with h7 h8
    exact absurd h7 (by decide)
  · intro dist s msg hb hgeo
    unfold searchWildfires
    rw [if_neg hb, hgeo]

/-- Witness for C8 (amended): the three failure modes evaluated on concrete
inputs, and the surfaced search error for a concrete zero-candidate
geocoding response. -/
theorem geocode_error_modes_w :
    geocodeAddress (.response 200 (.ok ⟨none⟩)) =
      .error (geocodeFailMsg addressNotFoundMsg) ∧
    geocodeAddress (.response 404 (.ok ⟨some [⟨1, 2, 3, "a"⟩]⟩)) =
      .error (geocodeFailMsg (httpErrorMsg 404)) ∧
    (searchWildfires dummyDist
      { prevError := "", prevResults := [], address := "a", cache := none,
        now := 0, geo := .response 200 (.ok ⟨some []⟩),
        wf := .transportError ("x") }).error =
      geocodeFailMsg addressNotFoundMsg :=
  ⟨geocode_error_modes.1 200 ⟨none⟩ rfl rfl,
   geocode_error_modes.2.1 404 (.ok ⟨some [⟨1, 2, 3, "a"⟩]⟩) rfl,
   geocode_error_modes.2.2.2.2 dummyDist _ (geocodeFailMsg addressNotFoundMsg)
     (by decide) rfl⟩

end WildfireProx
